import Mathlib

/-!
# Verification of the pulsar sphere canvas animation

A shallow embedding of the animation code in `CanvasComp.tsx` (and its
wave-arc variant): the agent-state enumeration, the per-state color
palettes, the synthetic audio-band derivation, the per-tick sphere
position update, the color-cycle index, the frame-throttled animation
step, the teardown of the scheduled-callback handle, and the wave-point
sampler.  Numbers are real numbers; every call to the host's random
source becomes an explicit real-valued parameter of the embedded
function, so the embedding is a pure function of its inputs.
-/

namespace Pulsar

/-- The closed enumeration of agent states (`AgentState` in the source). -/
inductive AgentState where
  | disconnected
  | connecting
  | initializing
  | listening
  | thinking
  | speaking
  deriving DecidableEq, BEq, Repr

/-- A palette of 5 named colors (`ColorPalette` in the source). -/
structure ColorPalette where
  primary : String
  secondary : String
  tertiary : String
  accent : String
  highlight : String
  deriving DecidableEq, Repr

/-- The per-state palette table (`statePalettes` in the source), modelled as
the list of entries of the record literal, in source order. -/
def statePalettesEntries : List (AgentState × ColorPalette) :=
  [ (AgentState.disconnected,
      { primary := "#D3E4FD", secondary := "#9b87f5", tertiary := "#E5DEFF",
        accent := "#8B5CF6", highlight := "#FFDEE2" }),
    (AgentState.connecting,
      { primary := "#D3E4FD", secondary := "#7E69AB", tertiary := "#E5DEFF",
        accent := "#8B5CF6", highlight := "#FFDEE2" }),
    (AgentState.initializing,
      { primary := "#D3E4FD", secondary := "#6E59A5", tertiary := "#E5DEFF",
        accent := "#9b87f5", highlight := "#FFDEE2" }),
    (AgentState.listening,
      { primary := "#D3E4FD", secondary := "#D946EF", tertiary := "#E5DEFF",
        accent := "#8B5CF6", highlight := "#FFDEE2" }),
    (AgentState.thinking,
      { primary := "#D3E4FD", secondary := "#0EA5E9", tertiary := "#D6BCFA",
        accent := "#33C3F0", highlight := "#FFDEE2" }),
    (AgentState.speaking,
      { primary := "#D3E4FD", secondary := "#1EAEDB", tertiary := "#D6BCFA",
        accent := "#0FA0CE", highlight := "#FFDEE2" }) ]

/-- Looking a state up in the palette table (`statePalettes[state]` in the
source): the first entry whose key equals the state, if any. -/
def paletteLookup (s : AgentState) : Option ColorPalette :=
  (statePalettesEntries.find? (fun e => e.fst == s)).map Prod.snd

/-- The keys of a `ColorPalette` record, in declaration order
(`Object.keys(colors)` in the source). -/
def paletteKeys : List String :=
  ["primary", "secondary", "tertiary", "accent", "highlight"]

/-- The four synthetic frequency-band values (`AudioBands` in the source). -/
structure AudioBands where
  low : ℝ
  mid : ℝ
  high : ℝ
  transient : ℝ

/-- `simulateAudioBands` from the source: derives the four band values from
the audio level, the agent state and the elapsed time.  The single call to
the host random source (used for the transient component) is the explicit
parameter `rand`. -/
noncomputable def simulateAudioBands (audioLevel : ℝ) (state : AgentState)
    (time : ℝ) (rand : ℝ) : AudioBands :=
  let absLevel := |audioLevel|
  match state with
  | AgentState.speaking =>
      { low := absLevel * (0.7 + 0.3 * Real.sin (time * 0.002))
        mid := absLevel * (0.5 + 0.5 * Real.sin (time * 0.005))
        high := absLevel * (0.8 + 0.2 * Real.sin (time * 0.01))
        transient := absLevel * (if rand > 0.8 then 1.5 else 0.1) }
  | AgentState.listening =>
      { low := absLevel * (0.4 + 0.3 * Real.sin (time * 0.002))
        mid := absLevel * (0.7 + 0.3 * Real.sin (time * 0.005))
        high := absLevel * (0.5 + 0.2 * Real.sin (time * 0.01))
        transient := absLevel * (if rand > 0.7 then 1.2 else 0.1) }
  | _ =>
      { low := absLevel * (0.3 + 0.2 * Real.sin (time * 0.001))
        mid := absLevel * (0.3 + 0.2 * Real.sin (time * 0.003))
        high := absLevel * (0.3 + 0.2 * Real.sin (time * 0.005))
        transient := absLevel * (if rand > 0.9 then 0.8 else 0.1) }

/-- The mutable per-instance animation state (`SphereConfig` in
`CanvasComp.tsx`). -/
structure SphereConfig where
  baseRadius : ℝ
  maxExtraRadius : ℝ
  arcCount : ℕ
  arcWidth : ℝ
  rotation : ℝ
  distortion : ℝ
  velocityX : ℝ
  velocityY : ℝ
  x : ℝ
  y : ℝ

/-- The initial sphere configuration (`sphereConfigRef` initializer in
`CanvasComp.tsx`, for a given `size`). -/
noncomputable def initialSphereConfig (size : ℝ) : SphereConfig :=
  { baseRadius := size * 0.35
    maxExtraRadius := size * 0.1
    arcCount := 3
    arcWidth := size * 0.03
    rotation := 0
    distortion := 0
    velocityX := 0
    velocityY := 0
    x := 0
    y := 0 }

/-- `updateSpherePosition` from the source, as a pure function: the two
random draws for the acceleration become the parameters `randX` and
`randY`; the result is the updated configuration together with the
returned absolute draw position `(centerX + x, centerY + y)`.  `size` is
the canvas size captured from the component scope. -/
noncomputable def updateSpherePosition (size : ℝ) (config : SphereConfig)
    (centerX centerY : ℝ) (bands : AudioBands) (deltaTime : ℝ)
    (randX randY : ℝ) : SphereConfig × ℝ × ℝ :=
  let movementFactor := bands.transient * 2 + bands.mid * 1.5
  let ax := (randX - 0.5) * 0.01 * movementFactor
  let ay := (randY - 0.5) * 0.01 * movementFactor
  let vx0 := config.velocityX + ax
  let vy0 := config.velocityY + ay
  let vx1 := vx0 * 0.95
  let vy1 := vy0 * 0.95
  let maxVelocity := 0.5 + movementFactor * 0.5
  let velocityMagnitude := Real.sqrt (vx1 * vx1 + vy1 * vy1)
  let vx2 := if velocityMagnitude > maxVelocity
    then vx1 / velocityMagnitude * maxVelocity else vx1
  let vy2 := if velocityMagnitude > maxVelocity
    then vy1 / velocityMagnitude * maxVelocity else vy1
  let x1 := config.x + vx2 * deltaTime * 0.1
  let y1 := config.y + vy2 * deltaTime * 0.1
  let maxDisplacement := size * 0.05
  let x2 := max (min x1 maxDisplacement) (-maxDisplacement)
  let y2 := max (min y1 maxDisplacement) (-maxDisplacement)
  ({ config with velocityX := vx2, velocityY := vy2, x := x2, y := y2 },
    centerX + x2, centerY + y2)

/-- The per-tick inputs of one `updateSpherePosition` call: the canvas
center, the band values for the tick, the delta-time and the two random
draws. -/
structure TickInput where
  centerX : ℝ
  centerY : ℝ
  bands : AudioBands
  deltaTime : ℝ
  randX : ℝ
  randY : ℝ

/-- A finite sequence of `updateSpherePosition` calls threaded through the
sphere configuration. -/
noncomputable def runTicks (size : ℝ) (config : SphereConfig) :
    List TickInput → SphereConfig
  | [] => config
  | t :: ts =>
      runTicks size
        (updateSpherePosition size config t.centerX t.centerY t.bands
          t.deltaTime t.randX t.randY).1 ts

/-- The color-cycle index of arc `i` (`drawOrbitalArcs` in the source):
`(i + Math.floor(colorCycle)) % Object.keys(colors).length`.  The JS `%`
operator is remainder truncated toward zero, `Int.tmod`. -/
noncomputable def colorIndex (i : ℕ) (colorCycle : ℝ) : ℤ :=
  Int.tmod ((i : ℤ) + ⌊colorCycle⌋) (paletteKeys.length : ℤ)

/-- One advance of the color-cycle accumulator (`animate` in the source):
`colorCycleRef.current += deltaTime * 0.0001`. -/
noncomputable def colorCycleStep (colorCycle deltaTime : ℝ) : ℝ :=
  colorCycle + deltaTime * 0.0001

/-- The frame interval of the throttle: `1000 / 30` milliseconds. -/
noncomputable def frameInterval : ℝ := 1000 / 30

/-- The scheduling-relevant state of the animation loop: the timestamp of
the last drawn frame (`lastFrameTime`), the time accumulator
(`timeRef.current`) and the color-cycle accumulator
(`colorCycleRef.current`). -/
structure AnimState where
  lastFrameTime : ℝ
  time : ℝ
  colorCycle : ℝ

/-- One invocation of the `animate` callback at a scheduled timestamp,
restricted to its scheduling effect: when the elapsed time since the last
drawn frame reaches `frameInterval` the draw body runs (advancing the two
accumulators by the delta and recording the timestamp) and the flag is
`true`; otherwise the state is untouched and the flag is `false`. -/
noncomputable def animateStep (s : AnimState) (timestamp : ℝ) :
    AnimState × Bool :=
  if timestamp - s.lastFrameTime ≥ frameInterval then
    ({ lastFrameTime := timestamp
       time := s.time + (timestamp - s.lastFrameTime)
       colorCycle := s.colorCycle + (timestamp - s.lastFrameTime) * 0.0001 },
      true)
  else (s, false)

/-- Run the animation callback over a list of scheduled timestamps. -/
noncomputable def runAnimate (s : AnimState) : List ℝ → AnimState
  | [] => s
  | t :: ts => runAnimate (animateStep s t).1 ts

/-- The timestamps of the invocations at which a frame is actually
drawn. -/
noncomputable def drawnTimes (s : AnimState) : List ℝ → List ℝ
  | [] => []
  | t :: ts =>
      if (animateStep s t).2
        then t :: drawnTimes (animateStep s t).1 ts
        else drawnTimes (animateStep s t).1 ts

/-- The teardown of the animation handle (the `useEffect` cleanup in the
source): when the handle is non-zero the pending callback is cancelled and
the handle zeroed.  The result is the new handle value together with the
number of cancellation calls performed. -/
def teardown (handle : ℕ) : ℕ × ℕ :=
  if handle ≠ 0 then (0, 1) else (handle, 0)

/-- The sphere configuration of the wave-arc variant (`SphereConfig` in the
unnamed source file): the base fields plus blur and wave parameters. -/
structure SphereConfigW where
  baseRadius : ℝ
  maxExtraRadius : ℝ
  arcCount : ℕ
  arcWidth : ℝ
  rotation : ℝ
  distortion : ℝ
  velocityX : ℝ
  velocityY : ℝ
  x : ℝ
  y : ℝ
  blurAmount : ℝ
  waveFactor : ℝ
  wavePeriod : ℝ
  waveSpeed : ℝ

/-- `calculateWavePoints` from the wave-arc variant: samples `steps + 1 =
31` points along the arc, each displaced radially by a sine wave whose
parameters are the configured wave parameters modulated by the high and
mid bands. -/
noncomputable def calculateWavePoints (centerX centerY radius startAngle
    endAngle : ℝ) (config : SphereConfigW) (time : ℝ) (bands : AudioBands) :
    List (ℝ × ℝ) :=
  let steps : ℕ := 30
  let waveFactor := config.waveFactor * (1 + bands.high * 0.5)
  let wavePeriod := config.wavePeriod * (1 - bands.mid * 0.3)
  let waveSpeed := config.waveSpeed * (1 + bands.mid * 0.5)
  (List.range (steps + 1)).map (fun (i : ℕ) =>
    let angle := startAngle + (endAngle - startAngle) * (i : ℝ) / (steps : ℝ)
    let waveOffset := Real.sin (angle * wavePeriod + time * waveSpeed) *
      waveFactor * radius * (1 + bands.high * 0.3)
    let waveRadius := radius + waveOffset
    (centerX + Real.cos angle * waveRadius,
      centerY + Real.sin angle * waveRadius))

/-! ## Helper lemmas -/

/-- A band term `|l| * (c₁ + c₂ * sin θ)` is non-negative when
`0 ≤ c₂ ≤ c₁`. -/
theorem band_term_nonneg (l c₁ c₂ θ : ℝ) (h₂ : 0 ≤ c₂) (h : c₂ ≤ c₁) :
    0 ≤ |l| * (c₁ + c₂ * Real.sin θ) := by
  have hs := Real.neg_one_le_sin θ
  exact mul_nonneg (abs_nonneg l) (by nlinarith)

/-! ## Claims -/

/-- C3: for every agent state, time, audio level and random draw, the low,
mid and high components of `simulateAudioBands` are non-negative; and when
the audio level is `0`, all four components are `0`. -/
theorem simulateAudioBands_nonneg (audioLevel time rand : ℝ)
    (state : AgentState) :
    0 ≤ (simulateAudioBands audioLevel state time rand).low ∧
    0 ≤ (simulateAudioBands audioLevel state time rand).mid ∧
    0 ≤ (simulateAudioBands audioLevel state time rand).high ∧
    (audioLevel = 0 →
      (simulateAudioBands audioLevel state time rand).low = 0 ∧
      (simulateAudioBands audioLevel state time rand).mid = 0 ∧
      (simulateAudioBands audioLevel state time rand).high = 0 ∧
      (simulateAudioBands audioLevel state time rand).transient = 0) := by
  cases state <;>
    exact ⟨band_term_nonneg _ _ _ _ (by norm_num) (by norm_num),
      band_term_nonneg _ _ _ _ (by norm_num) (by norm_num),
      band_term_nonneg _ _ _ _ (by norm_num) (by norm_num),
      fun hz => by simp [simulateAudioBands, hz]⟩

/-- C4: at `state = speaking`, `audioLevel = 1`, `time = 0`, the band
synthesis returns exactly `low = 0.7`, `mid = 0.5`, `high = 0.8`, and the
transient component lies between `0.1` and `1.5` whatever the random
draw. -/
theorem simulateAudioBands_speaking_scenario (rand : ℝ) :
    (simulateAudioBands 1 AgentState.speaking 0 rand).low = 0.7 ∧
    (simulateAudioBands 1 AgentState.speaking 0 rand).mid = 0.5 ∧
    (simulateAudioBands 1 AgentState.speaking 0 rand).high = 0.8 ∧
    0.1 ≤ (simulateAudioBands 1 AgentState.speaking 0 rand).transient ∧
    (simulateAudioBands 1 AgentState.speaking 0 rand).transient ≤ 1.5 := by
  refine ⟨?_, ?_, ?_, ?_, ?_⟩ <;>
    · simp only [simulateAudioBands, abs_one, zero_mul, Real.sin_zero]
      by_cases h : rand > 0.8 <;> simp [h] <;> norm_num

/-- C5: every value of the closed `AgentState` enumeration is found in the
palette table, and the palette it maps to has its 5 color fields all
defined (non-empty color strings). -/
theorem paletteLookup_total (s : AgentState) :
    ∃ p : ColorPalette, paletteLookup s = some p ∧
      p.primary ≠ "" ∧ p.secondary ≠ "" ∧ p.tertiary ≠ "" ∧
      p.accent ≠ "" ∧ p.highlight ≠ "" := by
  cases s <;> exact ⟨_, rfl, by decide, by decide, by decide, by decide, by decide⟩

/-- C8: teardown is idempotent on the handle: a non-zero handle is
cancelled exactly once and zeroed, a zero handle is left unchanged with no
cancellation, and a second teardown after a first one cancels nothing and
changes nothing. -/
theorem teardown_idempotent (handle : ℕ) :
    (handle ≠ 0 → teardown handle = (0, 1)) ∧
    (handle = 0 → teardown handle = (handle, 0)) ∧
    teardown (teardown handle).1 = ((teardown handle).1, 0) := by
  by_cases h : handle = 0 <;> simp [teardown, h]

/-- C10: `updateSpherePosition` changes only the velocity and position
offset fields of the configuration — base radius, max extra radius, arc
count, arc width, rotation and distortion are untouched — and its returned
draw position is the center plus the post-update offset. -/
theorem updateSpherePosition_frame (size : ℝ) (config : SphereConfig)
    (centerX centerY : ℝ) (bands : AudioBands) (deltaTime randX randY : ℝ) :
    (updateSpherePosition size config centerX centerY bands deltaTime
        randX randY).1.baseRadius = config.baseRadius ∧
    (updateSpherePosition size config centerX centerY bands deltaTime
        randX randY).1.maxExtraRadius = config.maxExtraRadius ∧
    (updateSpherePosition size config centerX centerY bands deltaTime
        randX randY).1.arcCount = config.arcCount ∧
    (updateSpherePosition size config centerX centerY bands deltaTime
        randX randY).1.arcWidth = config.arcWidth ∧
    (updateSpherePosition size config centerX centerY bands deltaTime
        randX randY).1.rotation = config.rotation ∧
    (updateSpherePosition size config centerX centerY bands deltaTime
        randX randY).1.distortion = config.distortion ∧
    (updateSpherePosition size config centerX centerY bands deltaTime
        randX randY).2 =
      (centerX + (updateSpherePosition size config centerX centerY bands
        deltaTime randX randY).1.x,
       centerY + (updateSpherePosition size config centerX centerY bands
        deltaTime randX randY).1.y) :=
  ⟨rfl, rfl, rfl, rfl, rfl, rfl, rfl⟩

/-- C6: for a non-negative color-cycle accumulator and any arc index, the
color index `(i + floor colorCycle) tmod 5` lies in `[0, 4]`, so the
palette-key lookup it feeds is within the 5 keys; and one tick advance of
the accumulator by a non-negative delta keeps it non-negative. -/
theorem colorIndex_in_range (i : ℕ) (colorCycle deltaTime : ℝ)
    (hc : 0 ≤ colorCycle) (hdt : 0 ≤ deltaTime) :
    (0 ≤ colorIndex i colorCycle ∧ colorIndex i colorCycle ≤ 4) ∧
    0 ≤ colorCycleStep colorCycle deltaTime := by
  have hbase : (0:ℤ) ≤ (i : ℤ) + ⌊colorCycle⌋ :=
    add_nonneg (Int.ofNat_nonneg i) (Int.floor_nonneg.mpr hc)
  refine ⟨⟨Int.tmod_nonneg _ hbase, ?_⟩,
    add_nonneg hc (mul_nonneg hdt (by norm_num))⟩
  have h5 : colorIndex i colorCycle < 5 := by
    have := Int.tmod_lt_of_pos ((i : ℤ) + ⌊colorCycle⌋)
      (show (0:ℤ) < (paletteKeys.length : ℤ) by decide)
    simpa [colorIndex, paletteKeys] using this
  omega

/-- Witness for `colorIndex_in_range` at `i = 7`, `colorCycle = 3.2`,
`deltaTime = 16`. -/
theorem colorIndex_in_range_witness :
    (0 ≤ colorIndex 7 3.2 ∧ colorIndex 7 3.2 ≤ 4) ∧
    0 ≤ colorCycleStep 3.2 16 :=
  colorIndex_in_range 7 3.2 16 (by norm_num) (by norm_num)

/-- Clamping to `[-M, M]` with `max`/`min` bounds the absolute value when
`0 ≤ M`. -/
theorem abs_clamp_le (x M : ℝ) (hM : 0 ≤ M) :
    |max (min x M) (-M)| ≤ M := by
  rw [abs_le]
  exact ⟨le_max_right _ _, max_le (min_le_right _ _) (by linarith)⟩

/-- One `updateSpherePosition` call leaves the position offset within
`±(size * 0.05)` on each axis, whatever the incoming configuration, bands,
delta-time and random draws. -/
theorem updateSpherePosition_offset_bounded (size : ℝ) (hsize : 0 ≤ size)
    (config : SphereConfig) (centerX centerY : ℝ) (bands : AudioBands)
    (deltaTime randX randY : ℝ) :
    |(updateSpherePosition size config centerX centerY bands deltaTime
        randX randY).1.x| ≤ size * 0.05 ∧
    |(updateSpherePosition size config centerX centerY bands deltaTime
        randX randY).1.y| ≤ size * 0.05 := by
  have hM : 0 ≤ size * 0.05 := by linarith
  exact ⟨abs_clamp_le _ _ hM, abs_clamp_le _ _ hM⟩

/-- C1: after any finite sequence of `updateSpherePosition` calls starting
from the initial configuration, the position offset fields `x` and `y`
each lie within `±(size * 0.05)`, for any non-negative canvas size — the
clamp at the end of every tick re-establishes the bound regardless of the
acceleration and velocity produced earlier in the tick. -/
theorem runTicks_offset_invariant (size : ℝ) (hsize : 0 ≤ size)
    (ticks : List TickInput) :
    |(runTicks size (initialSphereConfig size) ticks).x| ≤ size * 0.05 ∧
    |(runTicks size (initialSphereConfig size) ticks).y| ≤ size * 0.05 := by
  have hM : 0 ≤ size * 0.05 := by linarith
  suffices h : ∀ c : SphereConfig, |c.x| ≤ size * 0.05 → |c.y| ≤ size * 0.05 →
      |(runTicks size c ticks).x| ≤ size * 0.05 ∧
      |(runTicks size c ticks).y| ≤ size * 0.05 by
    exact h _ (by simpa [initialSphereConfig] using hM)
      (by simpa [initialSphereConfig] using hM)
  induction ticks with
  | nil => exact fun c hx hy => ⟨hx, hy⟩
  | cons t ts ih =>
      intro c hx hy
      exact ih _
        (updateSpherePosition_offset_bounded size hsize c t.centerX
          t.centerY t.bands t.deltaTime t.randX t.randY).1
        (updateSpherePosition_offset_bounded size hsize c t.centerX
          t.centerY t.bands t.deltaTime t.randX t.randY).2

/-- Witness for `runTicks_offset_invariant` at `size = 300` and the empty
tick sequence. -/
theorem runTicks_offset_invariant_witness :
    |(runTicks 300 (initialSphereConfig 300) []).x| ≤ 300 * 0.05 ∧
    |(runTicks 300 (initialSphereConfig 300) []).y| ≤ 300 * 0.05 :=
  runTicks_offset_invariant 300 (by norm_num) []

/-- C7: over any sequence of scheduled-callback timestamps (in particular
any monotonically increasing one), the timestamps at which the draw body
actually executes are pairwise at least `frameInterval = 1000/30` ms apart
(and the first one is at least `frameInterval` after the initial
`lastFrameTime`); an invocation arriving less than `frameInterval` after
the last drawn frame leaves the whole state — including the time and
color-cycle accumulators — unchanged and draws nothing. -/
theorem animate_throttle (s : AnimState) (timestamps : List ℝ) :
    List.Chain' (fun a b => frameInterval ≤ b - a)
      (s.lastFrameTime :: drawnTimes s timestamps) ∧
    ∀ t : ℝ, t - s.lastFrameTime < frameInterval →
      animateStep s t = (s, false) := by
  constructor
  · induction timestamps generalizing s with
    | nil => simp [drawnTimes]
    | cons t ts ih =>
        by_cases h : t - s.lastFrameTime ≥ frameInterval
        · have hstep : animateStep s t =
              ({ lastFrameTime := t
                 time := s.time + (t - s.lastFrameTime)
                 colorCycle := s.colorCycle +
                   (t - s.lastFrameTime) * 0.0001 }, true) := by
            simp [animateStep, h]
          rw [drawnTimes]
          simp only [hstep, if_true, List.chain'_cons]
          exact ⟨h, ih { lastFrameTime := t
                         time := s.time + (t - s.lastFrameTime)
                         colorCycle := s.colorCycle +
                           (t - s.lastFrameTime) * 0.0001 }⟩
        · have hstep : animateStep s t = (s, false) := by
            simp [animateStep, h]
          rw [drawnTimes]
          simp only [hstep, if_false]
          exact ih s
  · intro t ht
    simp [animateStep, not_le.mpr ht]

/-- C9: the wave-point sampler returns exactly 31 points, and the `k`-th
point lies at angle `startAngle + (endAngle - startAngle) * k / 30`, at a
radius equal to the base radius plus the sinusoidal displacement
`sin(angle * wavePeriod + time * waveSpeed) * waveFactor * radius *
(1 + high * 0.3)`, where the wave factor, period and speed are the
configured parameters modulated by the high and mid bands. -/
theorem calculateWavePoints_spec (centerX centerY radius startAngle
    endAngle : ℝ) (config : SphereConfigW) (time : ℝ) (bands : AudioBands) :
    (calculateWavePoints centerX centerY radius startAngle endAngle config
      time bands).length = 31 ∧
    ∀ k : ℕ, k < 31 →
      (calculateWavePoints centerX centerY radius startAngle endAngle
          config time bands)[k]? =
        some (centerX + Real.cos (startAngle + (endAngle - startAngle) *
            (k : ℝ) / 30) *
            (radius + Real.sin ((startAngle + (endAngle - startAngle) *
                (k : ℝ) / 30) * (config.wavePeriod * (1 - bands.mid * 0.3)) +
                time * (config.waveSpeed * (1 + bands.mid * 0.5))) *
              (config.waveFactor * (1 + bands.high * 0.5)) * radius *
              (1 + bands.high * 0.3)),
          centerY + Real.sin (startAngle + (endAngle - startAngle) *
            (k : ℝ) / 30) *
            (radius + Real.sin ((startAngle + (endAngle - startAngle) *
                (k : ℝ) / 30) * (config.wavePeriod * (1 - bands.mid * 0.3)) +
                time * (config.waveSpeed * (1 + bands.mid * 0.5))) *
              (config.waveFactor * (1 + bands.high * 0.5)) * radius *
              (1 + bands.high * 0.3))) := by
  constructor
  · simp only [calculateWavePoints, List.length_map, List.length_range]
  · intro k hk
    simp only [calculateWavePoints, List.getElem?_map, List.getElem?_range,
      hk, if_true, Option.map_some', Nat.cast_ofNat]

/-- A concrete sphere configuration with prior velocity `(0.1, 0)` (the
other fields are those of a 300-pixel canvas). -/
noncomputable def cexConfig : SphereConfig :=
  { baseRadius := 105, maxExtraRadius := 30, arcCount := 3, arcWidth := 9,
    rotation := 0, distortion := 0, velocityX := 0.1, velocityY := 0,
    x := 0, y := 0 }

/-- Concrete band values with a negative transient component, as the claim
quantifies over arbitrary real-valued bands. -/
noncomputable def cexBands : AudioBands :=
  { low := 0, mid := 0, high := 0, transient := -1 }

/-- Counterexample to C2 as stated: with bands `(0, 0, 0, -1)` the movement
factor is `-2`, the velocity cap `0.5 + movementFactor * 0.5 = -0.5` is
negative, and the "clamp" rescales the prior velocity `(0.1, 0)` to
magnitude `0.5 > -0.5`, so the claimed bound fails. -/
theorem velocity_clamp_counterexample :
    ¬ Real.sqrt
        ((updateSpherePosition 300 cexConfig 150 150 cexBands 16 0.5
            0.5).1.velocityX ^ 2 +
          (updateSpherePosition 300 cexConfig 150 150 cexBands 16 0.5
            0.5).1.velocityY ^ 2) ≤
      0.5 + (cexBands.transient * 2 + cexBands.mid * 1.5) * 0.5 := by
  have hvx : (updateSpherePosition 300 cexConfig 150 150 cexBands 16 0.5
      0.5).1.velocityX = -0.5 := by
    simp only [updateSpherePosition, cexConfig, cexBands]
    norm_num
    rw [show (361:ℝ) = 19 ^ 2 by norm_num,
      show (40000:ℝ) = 200 ^ 2 by norm_num,
      Real.sqrt_sq (by norm_num : (0:ℝ) ≤ 19),
      Real.sqrt_sq (by norm_num : (0:ℝ) ≤ 200)]
    split_ifs with h
    · norm_num
    · exact absurd (by norm_num) h
  have hvy : (updateSpherePosition 300 cexConfig 150 150 cexBands 16 0.5
      0.5).1.velocityY = 0 := by
    simp only [updateSpherePosition, cexConfig, cexBands]
    norm_num
  rw [hvx, hvy,
    show ((-0.5:ℝ)) ^ 2 + (0:ℝ) ^ 2 = 0.5 ^ 2 by norm_num,
    Real.sqrt_sq (by norm_num : (0:ℝ) ≤ 0.5)]
  simp only [cexBands]
  norm_num

/-- After the velocity clamp with a non-negative cap `M`, the magnitude of
the (possibly rescaled) velocity is at most `M`. -/
theorem velocity_clamp_magnitude_le (vx vy M : ℝ) (hM : 0 ≤ M) :
    Real.sqrt
        ((if Real.sqrt (vx * vx + vy * vy) > M
            then vx / Real.sqrt (vx * vx + vy * vy) * M else vx) ^ 2 +
          (if Real.sqrt (vx * vx + vy * vy) > M
            then vy / Real.sqrt (vx * vx + vy * vy) * M else vy) ^ 2) ≤
      M := by
  by_cases h : Real.sqrt (vx * vx + vy * vy) > M
  · rw [if_pos h, if_pos h]
    have hmagpos : 0 < Real.sqrt (vx * vx + vy * vy) := lt_of_le_of_lt hM h
    have hS : vx * vx + vy * vy = Real.sqrt (vx * vx + vy * vy) ^ 2 :=
      (Real.sq_sqrt (add_nonneg (mul_self_nonneg vx) (mul_self_nonneg vy))).symm
    have hexp : (vx / Real.sqrt (vx * vx + vy * vy) * M) ^ 2 +
        (vy / Real.sqrt (vx * vx + vy * vy) * M) ^ 2 = M ^ 2 := by
      field_simp
      nlinarith [hS]
    rw [hexp, Real.sqrt_sq hM]
  · rw [if_neg h, if_neg h]
    have h2 : vx ^ 2 + vy ^ 2 = vx * vx + vy * vy := by ring
    rw [h2]
    exact not_lt.mp h

/-- C2 (amended): for any prior velocity and any input bands whose movement
factor keeps the velocity cap `0.5 + movementFactor * 0.5` non-negative —
in particular all non-negative bands, which is everything the band
synthesis produces — a single `updateSpherePosition` call leaves the
velocity magnitude at most `0.5 + movementFactor * 0.5`, where
`movementFactor = bands.transient * 2 + bands.mid * 1.5`. -/
theorem updateSpherePosition_velocity_clamped (size : ℝ)
    (config : SphereConfig) (centerX centerY : ℝ) (bands : AudioBands)
    (deltaTime randX randY : ℝ)
    (h : 0 ≤ 0.5 + (bands.transient * 2 + bands.mid * 1.5) * 0.5) :
    Real.sqrt
        ((updateSpherePosition size config centerX centerY bands deltaTime
            randX randY).1.velocityX ^ 2 +
          (updateSpherePosition size config centerX centerY bands deltaTime
            randX randY).1.velocityY ^ 2) ≤
      0.5 + (bands.transient * 2 + bands.mid * 1.5) * 0.5 := by
  simp only [updateSpherePosition]
  exact velocity_clamp_magnitude_le _ _ _ h

/-- Zero bands, for the witness of the amended velocity bound. -/
noncomputable def witBands : AudioBands :=
  { low := 0, mid := 0, high := 0, transient := 0 }

/-- Witness for `updateSpherePosition_velocity_clamped` at zero bands on a
300-pixel canvas. -/
theorem updateSpherePosition_velocity_clamped_witness :
    Real.sqrt
        ((updateSpherePosition 300 (initialSphereConfig 300) 150 150
            witBands 16 0.5 0.5).1.velocityX ^ 2 +
          (updateSpherePosition 300 (initialSphereConfig 300) 150 150
            witBands 16 0.5 0.5).1.velocityY ^ 2) ≤
      0.5 + (witBands.transient * 2 + witBands.mid * 1.5) * 0.5 :=
  updateSpherePosition_velocity_clamped 300 (initialSphereConfig 300) 150
    150 witBands 16 0.5 0.5 (by norm_num [witBands])

end Pulsar
